import Mathlib

/-!
Verification of the credential and session management subsystem of the
blulog-api backend (Express + Mongoose).  The definitions below are a shallow
embedding of the auth controller (`src/controllers/auth.controller.js`), the
authentication middleware (`src/middleware/protect.js`), the token helpers
(`src/utils/generateToken.js`), the mail helper (`src/utils/sendMail.js`),
the user schema (`src/models/user.model.js`) and the auth routes
(`src/routes/auth.routes.js`).  External collaborators (bcrypt, Joi's email
format check, the JWT codec, the SMTP transport) are modelled as explicit
function or oracle parameters; the control flow of every handler is
translated branch by branch from the source.
-/

namespace Blulog

/-- Account record as stored by the user schema (`user.model.js`): the
`password` field holds the bcrypt hash; `fullName`, `phone` and `address`
are optional; `avatar`, `role` and `status` have schema defaults. -/
structure UserRec where
  id : String
  fullName : Option String
  email : String
  password : String
  phone : Option String
  address : Option String
  avatar : String
  role : String
  status : String
  deriving Repr, DecidableEq

/-- Default avatar URL from `user.model.js`. -/
def defaultAvatar : String :=
  "https://static1.s123-cdn-static-a.com/uploads/3107639/800_5e9de73574b25.png"

/-- Encode an optional field of a document: present iff the value is. -/
def optField (k : String) : Option String → List (String × String)
  | some v => [(k, v)]
  | none => []

/-- Raw Mongo document of an account, as an association list of fields.
The stored document carries `_id`, the password hash, and the version key
`__v`; optional fields appear only when set. -/
def userDoc (u : UserRec) : List (String × String) :=
  [("_id", u.id)] ++ optField "fullName" u.fullName ++
    [("email", u.email), ("password", u.password)] ++
    optField "phone" u.phone ++ optField "address" u.address ++
    [("avatar", u.avatar), ("role", u.role), ("status", u.status), ("__v", "0")]

/-- Keys of a document. -/
def docKeys (d : List (String × String)) : List String := d.map Prod.fst

/-- Mongoose `.select("-password")`: drops the password field from a
fetched document (used by `getProfile`, `list`, `updateStatus` and the
authentication middleware). -/
def selectNoPassword (d : List (String × String)) : List (String × String) :=
  d.filter (fun kv => !(kv.1 == "password"))

/-- Rename step of the user schema's `toJSON` transform: `ret.id = ret._id`
followed by `delete ret._id`. -/
def renameIdKey (kv : String × String) : String × String :=
  if kv.1 = "_id" then ("id", kv.2) else kv

/-- Serialization transform set on the user schema (`user.model.js`):
exposes `id` instead of `_id` and deletes `__v` and `password`.  Express's
`res.json` applies it to every Mongoose document placed in a response body. -/
def mongooseToJSON (d : List (String × String)) : List (String × String) :=
  (d.map renameIdKey).filter (fun kv => !(kv.1 == "__v") && !(kv.1 == "password"))

/-- Check that no field of a document is named `password`. -/
def noPasswordKey (d : List (String × String)) : Bool :=
  d.all (fun kv => !(kv.1 == "password"))

/-- Lift `noPasswordKey` to an optional response body. -/
def bodyNoPassword : Option (List (String × String)) → Bool
  | none => true
  | some d => noPasswordKey d

/-- Payload of an access token.  `generateToken.js` signs `{ id, email }`
at login; the refresh handler signs `{ id }` only; `jsonwebtoken` adds
`iat` and `exp`.  The `email` field records whether an `email` claim was
included at signing. -/
structure AccessPayload where
  id : String
  email : Option String
  iat : Nat
  exp : Nat
  deriving Repr, DecidableEq

/-- Claim keys carried by an access token, in signing order, with the
codec-added `iat` and `exp`. -/
def accessClaimKeys (t : AccessPayload) : List String :=
  ["id"] ++ (match t.email with | some _ => ["email"] | none => []) ++ ["iat", "exp"]

/-- Access token minted at login (`generateAccessToken` in
`generateToken.js`): signs `{ id: user.id, email: user.email }`. -/
def generateAccessToken (now ttl : Nat) (u : UserRec) : AccessPayload :=
  { id := u.id, email := some u.email, iat := now, exp := now + ttl }

/-- Access token minted inside the refresh handler
(`auth.controller.js`, `refreshToken`): signs `{ id: user.id }` only. -/
def refreshMintAccessToken (now ttl : Nat) (u : UserRec) : AccessPayload :=
  { id := u.id, email := none, iat := now, exp := now + ttl }

/-- Payload of a refresh token (`generateRefreshToken`): `{ id: user.id }`
plus codec-added `iat` and `exp`. -/
structure RefreshPayload where
  sub : String
  iat : Nat
  exp : Nat
  deriving Repr, DecidableEq

/-- Refresh token minted at login. -/
def generateRefreshToken (now ttl : Nat) (u : UserRec) : RefreshPayload :=
  { sub := u.id, iat := now, exp := now + ttl }

/-- ASCII lowercasing of a character, modelling the JavaScript
`toLowerCase` applied by the schema's `lowercase: true` setter. -/
def lowerChar (c : Char) : Char :=
  if 'A' ≤ c ∧ c ≤ 'Z' then Char.ofNat (c.toNat + 32) else c

/-- ASCII lowercasing of a string. -/
def lowerStr (s : String) : String := String.mk (s.toList.map lowerChar)

/-- Mongo store: the collection of account records. -/
def findById (store : List UserRec) (id : String) : Option UserRec :=
  store.find? (fun u => u.id == id)

/-- Mongoose `User.findOne({ email })`: the schema's `lowercase: true`
setter is applied to the query filter, so the lookup compares against the
lowercased email; stored emails are themselves lowercased at save time. -/
def findOneEmail (store : List UserRec) (email : String) : Option UserRec :=
  store.find? (fun u => u.email == lowerStr email)

/-- Mongoose `findByIdAndUpdate`: applies an update to the matching record. -/
def updateById (store : List UserRec) (id : String) (f : UserRec → UserRec) :
    List UserRec :=
  store.map (fun u => if u.id == id then f u else u)

/-- Request body of POST /register. -/
structure RegisterReq where
  fullName : Option String
  email : String
  password : String
  deriving Repr, DecidableEq

/-- Joi `registerValidationSchema` (`schemas/auth.js`): `fullName` optional
with length 3..100, `email` required and RFC-shaped (the shape check itself
is `Joi.string().email()`, an external library predicate, passed in as
`emailOk`), `password` required with length at least 6. -/
def registerValidationError (emailOk : String → Bool) (r : RegisterReq) : Bool :=
  (match r.fullName with
   | some f => decide (f.length < 3) || decide (100 < f.length)
   | none => false) ||
  (r.email == "") || !(emailOk r.email) || decide (r.password.length < 6)

/-- Public body projection returned by register: the explicit object
literal `{ id, fullName, email }` from `auth.controller.js`. -/
def registerBodyUser (u : UserRec) : List (String × String) :=
  [("id", u.id)] ++ optField "fullName" u.fullName ++ [("email", u.email)]

/-- Outcome of the register handler: HTTP status and message, optional
response body user projection, and the store after the request. -/
structure RegisterResult where
  status : Nat
  message : String
  bodyUser : Option (List (String × String))
  storeAfter : List UserRec
  deriving Repr, DecidableEq

/-- Record persisted by `User.create` during registration: the schema's
`lowercase: true` setter stores the email lowercased and the schema
defaults fill `avatar`, `role = "user"` and `status = "active"`; `hash` is
the external bcrypt collaborator and `freshId` the store-assigned id. -/
def mkRegUser (hash : String → String) (freshId : String) (r : RegisterReq) :
    UserRec :=
  { id := freshId, fullName := r.fullName, email := lowerStr r.email,
    password := hash r.password, phone := none, address := none,
    avatar := defaultAvatar, role := "user", status := "active" }

/-- Register handler (`auth.controller.js`, `register`): validate, check
email non-existence via `findOne`, hash, create, and answer 201 with the
public `{ id, fullName, email }` projection. -/
def register (emailOk : String → Bool) (hash : String → String)
    (freshId : String) (store : List UserRec) (r : RegisterReq) : RegisterResult :=
  if registerValidationError emailOk r then
    ⟨400, "Validation errors", none, store⟩
  else
    match findOneEmail store r.email with
    | some _ => ⟨400, "Email is already in use", none, store⟩
    | none =>
      ⟨201, "User registered successfully",
        some (registerBodyUser (mkRegUser hash freshId r)),
        store ++ [mkRegUser hash freshId r]⟩

/-- Request body of POST /login. -/
structure LoginReq where
  email : String
  password : String
  deriving Repr, DecidableEq

/-- Joi `loginValidationSchema`: email required and RFC-shaped, password
required (non-empty). -/
def loginValidationError (emailOk : String → Bool) (r : LoginReq) : Bool :=
  (r.email == "") || !(emailOk r.email) || (r.password == "")

/-- Public body projection returned by login: the explicit object literal
`{ id, fullName, email, role }`. -/
def loginBodyUser (u : UserRec) : List (String × String) :=
  [("id", u.id)] ++ optField "fullName" u.fullName ++
    [("email", u.email), ("role", u.role)]

/-- Outcome of the login handler: status and message, the refresh-token
cookie set on success, the access token and user projection of the body. -/
structure LoginResult where
  status : Nat
  message : String
  cookieSet : Option RefreshPayload
  accessToken : Option AccessPayload
  bodyUser : Option (List (String × String))
  deriving Repr, DecidableEq

/-- Login handler (`auth.controller.js`, `login`): validate, look the
account up by email, compare the password against the stored bcrypt hash
(`compare` is the external bcrypt collaborator), then mint both tokens,
set the refresh cookie and return the access token with a user
projection.  Both failure branches return the same 400 response. -/
def login (emailOk : String → Bool) (compare : String → String → Bool)
    (now attl rttl : Nat) (store : List UserRec) (r : LoginReq) : LoginResult :=
  if loginValidationError emailOk r then
    ⟨400, "Validation errors", none, none, none⟩
  else
    match findOneEmail store r.email with
    | none => ⟨400, "Invalid email or password", none, none, none⟩
    | some user =>
      if compare r.password user.password then
        ⟨200, "Login successful", some (generateRefreshToken now rttl user),
          some (generateAccessToken now attl user), some (loginBodyUser user)⟩
      else
        ⟨400, "Invalid email or password", none, none, none⟩

/-- JavaScript value found in the `id` claim of a decoded token payload:
absent (no such property), a string, or a number. -/
inductive JsId where
  | absent : JsId
  | str : String → JsId
  | num : Int → JsId
  deriving Repr, DecidableEq

/-- JavaScript truthiness of an `id` claim: `undefined`, `""` and `0` are
falsy. -/
def jsTruthy : JsId → Bool
  | .absent => false
  | .str s => !(s == "")
  | .num n => !(n == 0)

/-- JavaScript `typeof x === "string"`. -/
def jsIsString : JsId → Bool
  | .str _ => true
  | _ => false

/-- String content of an `id` claim (only consulted when it is a string). -/
def jsIdString : JsId → String
  | .str s => s
  | _ => ""

/-- Decoded claims of a verified access token, as consulted by the
middleware. -/
structure DecodedClaims where
  id : JsId
  deriving Repr, DecidableEq

/-- Result of `jwt.verify` on an access token: verified claims, an
expiry error (`TokenExpiredError`, signature valid but expired), or any
malformed-token/invalid-signature error (`JsonWebTokenError`). -/
inductive VerifyResult where
  | ok : DecodedClaims → VerifyResult
  | expired : VerifyResult
  | invalid : VerifyResult
  deriving Repr, DecidableEq

/-- Character-list prefix test, modelling JavaScript `startsWith`. -/
def startsWithChars : List Char → List Char → Bool
  | [], _ => true
  | _ :: _, [] => false
  | p :: ps, c :: cs => p == c && startsWithChars ps cs

/-- JavaScript `split(" ")`: cut a character list at every space, keeping
empty segments. -/
def splitSpace : List Char → List (List Char)
  | [] => [[]]
  | c :: cs =>
    match splitSpace cs with
    | [] => [[]]
    | w :: ws => if c = ' ' then [] :: w :: ws else (c :: w) :: ws

/-- Token extraction of the middleware (`protect.js`):
`authHeader && authHeader.startsWith("Bearer") ? authHeader.split(" ")[1] : null`. -/
def extractToken : Option String → Option String
  | none => none
  | some h =>
    if startsWithChars "Bearer".toList h.toList then
      ((splitSpace h.toList).get? 1).map (fun cs => String.mk cs)
    else none

/-- Terminal outcome of the authentication middleware: a rejection with a
status and message, or proceeding with the account document (password
excluded) attached to the request context. -/
inductive AuthOutcome where
  | reject : Nat → String → AuthOutcome
  | proceed : List (String × String) → AuthOutcome
  deriving Repr, DecidableEq

/-- Authentication middleware (`protect.js`, `authenticate`), branch by
branch: extract the bearer token (a missing or empty token is falsy and
rejected 401); verify it (`JsonWebTokenError` is 401 invalid,
`TokenExpiredError` is 401 expired); reject 400 when
`!decoded.id || typeof decoded.id !== "string"`; look the account up with
the password excluded, 404 when absent; otherwise attach it and proceed. -/
def authenticate (verify : String → VerifyResult) (store : List UserRec)
    (authHeader : Option String) : AuthOutcome :=
  match extractToken authHeader with
  | none => .reject 401 "Unauthorized - No token provided"
  | some t =>
    if t == "" then .reject 401 "Unauthorized - No token provided"
    else
      match verify t with
      | .invalid => .reject 401 "Invalid token, not authorized"
      | .expired => .reject 401 "Token expired, please log in again"
      | .ok c =>
        if !(jsTruthy c.id) || !(jsIsString c.id) then
          .reject 400 "Invalid user ID in token"
        else
          match findById store (jsIdString c.id) with
          | none => .reject 404 "User not found, authentication failed"
          | some u => .proceed (selectNoPassword (userDoc u))

/-- Value carried by the `refreshToken` cookie: either a token signed by
this server with the refresh secret (identified with its payload, since
verification of an authentic token recovers exactly the signed claims), or
any other string, which verification rejects. -/
inductive RTok where
  | signed : RefreshPayload → RTok
  | garbage : RTok
  deriving Repr, DecidableEq

/-- Verification of a refresh token against the refresh secret at time
`now`: recovers the subject of an authentic, unexpired token and fails
otherwise (`jwt.verify` reports expired or invalid through its callback's
`err`, which the handler does not distinguish). -/
def verifyRefresh (t : RTok) (now : Nat) : Option String :=
  match t with
  | .signed p => if now < p.exp then some p.sub else none
  | .garbage => none

/-- Effect of a handler on the `refreshToken` cookie: no cookie operation,
or `res.clearCookie("refreshToken")`. -/
inductive CookieEffect where
  | noop : CookieEffect
  | cleared : CookieEffect
  deriving Repr, DecidableEq

/-- Client/server state consumed by the refresh handler: the cookie and
the account store. -/
structure RefreshState where
  cookie : Option RTok
  store : List UserRec
  deriving Repr, DecidableEq

/-- Outcome of the refresh handler: status, message, minted access token,
cookie effect and the store after the request. -/
structure RefreshResult where
  status : Nat
  message : String
  newAccessToken : Option AccessPayload
  cookieEffect : CookieEffect
  storeAfter : List UserRec
  deriving Repr, DecidableEq

/-- Apply a cookie effect to the cookie jar. -/
def applyCookieEffect : CookieEffect → Option RTok → Option RTok
  | .noop, c => c
  | .cleared, _ => none

/-- Refresh handler (`auth.controller.js`, `refreshToken`): missing cookie
is 401; a verification error clears the cookie and returns 403; a valid
token whose subject matches no account clears the cookie and returns 403;
otherwise a new access token is signed with `{ id: user.id }` and
returned — no cookie operation and no store write occur on this path. -/
def refreshHandler (now attl : Nat) (st : RefreshState) : RefreshResult :=
  match st.cookie with
  | none => ⟨401, "Unauthorized", none, .noop, st.store⟩
  | some t =>
    match verifyRefresh t now with
    | none => ⟨403, "Forbidden - Invalid refresh token", none, .cleared, st.store⟩
    | some sub =>
      match findById st.store sub with
      | none => ⟨403, "Forbidden - User not found", none, .cleared, st.store⟩
      | some u =>
        ⟨200, "Access token refreshed", some (refreshMintAccessToken now attl u),
          .noop, st.store⟩

/-- Payload of a reset token (`forgotPassword` signs `{ id: user._id }`). -/
structure ResetPayload where
  sub : String
  iat : Nat
  exp : Nat
  deriving Repr, DecidableEq

/-- Outcome of the SMTP transport underlying `sendEmail`. -/
inductive MailOutcome where
  | sent : MailOutcome
  | failed : MailOutcome
  deriving Repr, DecidableEq

/-- Mail helper (`utils/sendMail.js`): wraps the nodemailer call in its own
try/catch, logs a failure and returns normally — it never propagates a
transport error to its caller. -/
def sendEmail (transport : MailOutcome) : Bool :=
  match transport with
  | .sent => true
  | .failed => false

/-- Outcome of the forgot-password handler: status, message, the reset
link built and emailed (base URL paired with the embedded token), and
whether the dispatch succeeded. -/
structure ForgotResult where
  status : Nat
  message : String
  resetLink : Option (String × ResetPayload)
  emailed : Bool
  deriving Repr, DecidableEq

/-- Forgot-password handler (`auth.controller.js`, `forgotPassword`): an
unknown email is 404; otherwise a reset token is signed, a link embedding
it is built from the client base URL and handed to `sendEmail`, and the
handler returns 200.  The dispatch outcome is swallowed inside
`sendEmail`, so it cannot alter the response. -/
def forgotPassword (now rsttl : Nat) (transport : MailOutcome)
    (clientURL : String) (store : List UserRec) (email : String) : ForgotResult :=
  match findOneEmail store email with
  | none => ⟨404, "User not found", none, false⟩
  | some u =>
    let tok : ResetPayload := ⟨u.id, now, now + rsttl⟩
    let sent := sendEmail transport
    ⟨200, "Password reset link sent successfully", some (clientURL, tok), sent⟩

/-- Result of `jwt.verify` on a reset token: the decoded subject, or any
error (expired or malformed), which the handler's catch treats uniformly. -/
inductive ResetVerify where
  | ok : String → ResetVerify
  | err : ResetVerify
  deriving Repr, DecidableEq

/-- Outcome of the reset-password handler. -/
structure ResetResult where
  status : Nat
  message : String
  storeAfter : List UserRec
  deriving Repr, DecidableEq

/-- Reset-password handler (`auth.controller.js`, `resetPassword`).  The
whole body sits in one try whose catch returns 400 "Invalid or expired
token": a verification error lands there, but so does any fault thrown by
the store (`storeUp = false` models an unavailable store) or by bcrypt
(`hashOk = false` models a hashing fault).  A valid token whose subject
matches no account is 404; otherwise the new password is hashed and
persisted, overwriting the old hash, with 200. -/
def resetPassword (verify : String → ResetVerify) (storeUp hashOk : Bool)
    (hash : String → String) (store : List UserRec)
    (token newPassword : String) : ResetResult :=
  match verify token with
  | .err => ⟨400, "Invalid or expired token", store⟩
  | .ok sub =>
    if !storeUp then ⟨400, "Invalid or expired token", store⟩
    else
      match findById store sub with
      | none => ⟨404, "User not found", store⟩
      | some u =>
        if !hashOk then ⟨400, "Invalid or expired token", store⟩
        else
          ⟨200, "Password reset successfully",
            updateById store u.id (fun w => { w with password := hash newPassword })⟩

/-- Request body of PUT /users/:id. -/
structure UpdateBody where
  fullName : Option String
  phone : Option String
  address : Option String
  avatar : Option String
  deriving Repr, DecidableEq

/-- Phone pattern of the update handler and user schema:
`^\+?[1-9]\d{1,14}$`. -/
def phoneDigitsOk (cs : List Char) : Bool :=
  match cs with
  | [] => false
  | c :: rest =>
    ('1' ≤ c && c ≤ '9') && rest.all Char.isDigit &&
      decide (1 ≤ rest.length) && decide (rest.length ≤ 14)

/-- Phone pattern applied to a string, with the optional leading `+`. -/
def phoneOk (s : String) : Bool :=
  match s.toList with
  | '+' :: rest => phoneDigitsOk rest
  | cs => phoneDigitsOk cs

/-- Apply the `{ fullName, phone, address, avatar }` update document to a
record; Mongoose drops the keys whose value is `undefined`. -/
def applyUpdateBody (b : UpdateBody) (u : UserRec) : UserRec :=
  { u with
    fullName := match b.fullName with | some v => some v | none => u.fullName,
    phone := match b.phone with | some v => some v | none => u.phone,
    address := match b.address with | some v => some v | none => u.address,
    avatar := match b.avatar with | some v => v | none => u.avatar }

/-- Outcome of a user mutation handler: status, message, response body
document and the store after the request. -/
structure MutResult where
  status : Nat
  message : String
  body : Option (List (String × String))
  storeAfter : List UserRec
  deriving Repr, DecidableEq

/-- Profile update handler (`auth.controller.js`, `update`): validates the
phone shape when a truthy phone is supplied, then delegates straight to
`findByIdAndUpdate` on the `:id` path parameter; the response body is the
updated document serialized by the schema's `toJSON` transform (no
`.select` on this path).  No comparison against the caller occurs. -/
def updateUser (store : List UserRec) (targetId : String) (b : UpdateBody) :
    MutResult :=
  if (match b.phone with | some p => !(p == "") && !(phoneOk p) | none => false) then
    ⟨400, "Invalid phone number format", none, store⟩
  else
    match findById store targetId with
    | none => ⟨404, "User not found", none, store⟩
    | some u =>
      let u' := applyUpdateBody b u
      ⟨200, "User profile updated successfully", some (mongooseToJSON (userDoc u')),
        updateById store targetId (applyUpdateBody b)⟩

/-- Status update handler (`auth.controller.js`, `updateStatus`): checks
the status value, then delegates to `findByIdAndUpdate` with
`.select("-password")` on the `:id` path parameter.  No comparison against
the caller occurs. -/
def updateStatusUser (store : List UserRec) (targetId status : String) :
    MutResult :=
  if !(status == "active" || status == "inactive") then
    ⟨400, "Invalid status", none, store⟩
  else
    match findById store targetId with
    | none => ⟨404, "User not found", none, store⟩
    | some u =>
      let u' := { u with status := status }
      ⟨200, "User status updated successfully",
        some (mongooseToJSON (selectNoPassword (userDoc u'))),
        updateById store targetId (fun w => { w with status := status })⟩

/-- Route PUT /users/:id (`auth.routes.js`): the chain is
`authenticate, update` — authentication only, no role or ownership gate. -/
def putUsersId (verify : String → VerifyResult) (store : List UserRec)
    (authHeader : Option String) (targetId : String) (b : UpdateBody) : MutResult :=
  match authenticate verify store authHeader with
  | .reject s m => ⟨s, m, none, store⟩
  | .proceed _ => updateUser store targetId b

/-- Route PATCH /users/:id/status (`auth.routes.js`): the chain is
`authenticate, updateStatus` — authentication only, no role or ownership
gate. -/
def patchUsersIdStatus (verify : String → VerifyResult) (store : List UserRec)
    (authHeader : Option String) (targetId status : String) : MutResult :=
  match authenticate verify store authHeader with
  | .reject s m => ⟨s, m, none, store⟩
  | .proceed _ => updateStatusUser store targetId status

/-- Specification-side rendering of the middleware state machine exactly
as the claim states it, for comparison with `authenticate`: no bearer
token extracted is 401 missing; invalid signature is 401 invalid; expired
is 401 expired; a subject id that is absent or not a string is 400; a
well-formed (string) subject with no matching account is 404; otherwise
the account, password excluded, is attached. -/
def authenticateClaimedSpec (verify : String → VerifyResult)
    (store : List UserRec) (authHeader : Option String) : AuthOutcome :=
  match extractToken authHeader with
  | none => .reject 401 "Unauthorized - No token provided"
  | some t =>
    if t == "" then .reject 401 "Unauthorized - No token provided"
    else
      match verify t with
      | .invalid => .reject 401 "Invalid token, not authorized"
      | .expired => .reject 401 "Token expired, please log in again"
      | .ok c =>
        match c.id with
        | .str s =>
          match findById store s with
          | none => .reject 404 "User not found, authentication failed"
          | some u => .proceed (selectNoPassword (userDoc u))
        | _ => .reject 400 "Invalid user ID in token"

/-- Amended specification of the middleware: identical to
`authenticateClaimedSpec` except that a subject id that is the empty
string is also rejected 400 (JavaScript truthiness), rather than being
sent to the store lookup. -/
def authenticateAmendedSpec (verify : String → VerifyResult)
    (store : List UserRec) (authHeader : Option String) : AuthOutcome :=
  match extractToken authHeader with
  | none => .reject 401 "Unauthorized - No token provided"
  | some t =>
    if t == "" then .reject 401 "Unauthorized - No token provided"
    else
      match verify t with
      | .invalid => .reject 401 "Invalid token, not authorized"
      | .expired => .reject 401 "Token expired, please log in again"
      | .ok c =>
        match c.id with
        | .str s =>
          if s == "" then .reject 400 "Invalid user ID in token"
          else
            match findById store s with
            | none => .reject 404 "User not found, authentication failed"
            | some u => .proceed (selectNoPassword (userDoc u))
        | _ => .reject 400 "Invalid user ID in token"

/-- Specification-side rendering of the reset-password outcome mapping
exactly as the claim states it: verification failure is 400; a valid
subject with no account is 404; success is 200; an unexpected fault
(store unavailable, hashing failure) escalates to an internal error 500. -/
def resetPasswordClaimedSpec (verify : String → ResetVerify)
    (storeUp hashOk : Bool) (hash : String → String) (store : List UserRec)
    (token newPassword : String) : ResetResult :=
  match verify token with
  | .err => ⟨400, "Invalid or expired token", store⟩
  | .ok sub =>
    if !storeUp then ⟨500, "Internal server error", store⟩
    else
      match findById store sub with
      | none => ⟨404, "User not found", store⟩
      | some u =>
        if !hashOk then ⟨500, "Internal server error", store⟩
        else
          ⟨200, "Password reset successfully",
            updateById store u.id (fun w => { w with password := hash newPassword })⟩

/-- Amended specification of reset-password: identical to
`resetPasswordClaimedSpec` except that an unexpected fault (store
unavailable, hashing failure) is reported by the catch-all as the same
client error 400 "Invalid or expired token", never as a 500. -/
def resetPasswordAmendedSpec (verify : String → ResetVerify)
    (storeUp hashOk : Bool) (hash : String → String) (store : List UserRec)
    (token newPassword : String) : ResetResult :=
  match verify token with
  | .err => ⟨400, "Invalid or expired token", store⟩
  | .ok sub =>
    if !storeUp then ⟨400, "Invalid or expired token", store⟩
    else
      match findById store sub with
      | none => ⟨404, "User not found", store⟩
      | some u =>
        if !hashOk then ⟨400, "Invalid or expired token", store⟩
        else
          ⟨200, "Password reset successfully",
            updateById store u.id (fun w => { w with password := hash newPassword })⟩

/-- Concrete fixture account used by witnesses. -/
def janeUser : UserRec :=
  { id := "u1", fullName := some "Jane Doe", email := "jane@x.com",
    password := "hashed-secret1", phone := none, address := none,
    avatar := defaultAvatar, role := "user", status := "active" }

/-- Concrete second fixture account used by witnesses. -/
def bobUser : UserRec :=
  { id := "u2", fullName := some "Bob Lee", email := "bob@x.com",
    password := "hashed-secret2", phone := none, address := none,
    avatar := defaultAvatar, role := "user", status := "active" }

/-- A search that fails on the first list continues into the second. -/
theorem find?_append_of_none {α : Type} (p : α → Bool) (l1 l2 : List α)
    (h : l1.find? p = none) : (l1 ++ l2).find? p = l2.find? p := by
  induction l1 with
  | nil => rfl
  | cons a l ih =>
    cases hp : p a with
    | true => simp [List.find?_cons, hp] at h
    | false =>
      simp only [List.cons_append, List.find?_cons, hp] at h ⊢
      exact ih h

/-- Splitting a space-free character list yields the list itself. -/
theorem splitSpace_no_space (cs : List Char) (h : ∀ c ∈ cs, c ≠ ' ') :
    splitSpace cs = [cs] := by
  induction cs with
  | nil => rfl
  | cons c cs ih =>
    have hc : c ≠ ' ' := h c (List.mem_cons_self c cs)
    have ih' := ih (fun x hx => h x (List.mem_cons_of_mem _ hx))
    simp [splitSpace, ih', hc]

/-- Dropping the password field via `.select("-password")` leaves no
password key. -/
theorem noPasswordKey_selectNoPassword (d : List (String × String)) :
    noPasswordKey (selectNoPassword d) = true := by
  simp only [noPasswordKey, selectNoPassword, List.all_eq_true]
  intro kv hkv
  exact (List.mem_filter.mp hkv).2

/-- The schema's `toJSON` transform leaves no password key. -/
theorem noPasswordKey_mongooseToJSON (d : List (String × String)) :
    noPasswordKey (mongooseToJSON d) = true := by
  simp only [noPasswordKey, mongooseToJSON, List.all_eq_true]
  intro kv hkv
  have h2 := (List.mem_filter.mp hkv).2
  cases hb : (kv.1 == "password") with
  | false => simp [hb]
  | true => simp [hb] at h2

/-- C1: for every pair of login requests that pass shape validation, one
naming an email that matches no stored account and one naming a stored
account's email with a password whose bcrypt comparison fails, the two
responses are the very same value — status 400, message "Invalid email or
password", no cookie, no token, no body — so the response reveals nothing
about whether the email exists. -/
theorem C1_login_enumeration_safe
    (emailOk : String → Bool) (compare : String → String → Bool)
    (now attl rttl : Nat) (store : List UserRec) (r1 r2 : LoginReq) (u : UserRec)
    (hv1 : loginValidationError emailOk r1 = false)
    (hv2 : loginValidationError emailOk r2 = false)
    (h1 : findOneEmail store r1.email = none)
    (h2 : findOneEmail store r2.email = some u)
    (hpw : compare r2.password u.password = false) :
    login emailOk compare now attl rttl store r1 =
      ⟨400, "Invalid email or password", none, none, none⟩ ∧
    login emailOk compare now attl rttl store r2 =
      ⟨400, "Invalid email or password", none, none, none⟩ := by
  constructor
  · simp [login, hv1, h1]
  · simp [login, hv2, h2, hpw]

/-- Witness for C1: the spec's own example pair, `nobody@x.com` with any
password versus `jane@x.com` with a wrong password, on a store holding
only Jane's account. -/
theorem C1_login_enumeration_safe_witness :
    loginValidationError (fun _ => true) ⟨"nobody@x.com", "whatever"⟩ = false ∧
    loginValidationError (fun _ => true) ⟨"jane@x.com", "wrong"⟩ = false ∧
    findOneEmail [janeUser] "nobody@x.com" = none ∧
    findOneEmail [janeUser] "jane@x.com" = some janeUser ∧
    (fun _ _ => false : String → String → Bool) "wrong" janeUser.password = false ∧
    (login (fun _ => true) (fun _ _ => false) 0 900 604800 [janeUser]
        ⟨"nobody@x.com", "whatever"⟩ =
      ⟨400, "Invalid email or password", none, none, none⟩ ∧
     login (fun _ => true) (fun _ _ => false) 0 900 604800 [janeUser]
        ⟨"jane@x.com", "wrong"⟩ =
      ⟨400, "Invalid email or password", none, none, none⟩) :=
  ⟨by decide, by decide, by decide, by decide, rfl,
    C1_login_enumeration_safe (fun _ => true) (fun _ _ => false) 0 900 604800
      [janeUser] ⟨"nobody@x.com", "whatever"⟩ ⟨"jane@x.com", "wrong"⟩ janeUser
      (by decide) (by decide) (by decide) (by decide) rfl⟩

/-- C3: the password hash never appears in an outward-facing projection of
an account: the explicit body literals of register and login, the
`.select("-password")` projection used by getProfile, list, updateStatus
and the authenticated request context, the serialization transform applied
to every selected document, and the transform alone on the update path
(which performs no select) all lack a `password` field, for every account
record and every request. -/
theorem C3_password_never_serialized (u : UserRec) (store : List UserRec)
    (tid st : String) (b : UpdateBody) :
    noPasswordKey (registerBodyUser u) = true ∧
    noPasswordKey (loginBodyUser u) = true ∧
    noPasswordKey (selectNoPassword (userDoc u)) = true ∧
    noPasswordKey (mongooseToJSON (selectNoPassword (userDoc u))) = true ∧
    noPasswordKey (mongooseToJSON (userDoc u)) = true ∧
    bodyNoPassword (updateUser store tid b).body = true ∧
    bodyNoPassword (updateStatusUser store tid st).body = true := by
  refine ⟨?_, ?_, noPasswordKey_selectNoPassword _, noPasswordKey_mongooseToJSON _,
    noPasswordKey_mongooseToJSON _, ?_, ?_⟩
  · cases hf : u.fullName <;> simp [registerBodyUser, optField, noPasswordKey, hf]
  · cases hf : u.fullName <;> simp [loginBodyUser, optField, noPasswordKey, hf]
  · unfold updateUser
    split
    · rfl
    · split
      · rfl
      · simp [bodyNoPassword, noPasswordKey_mongooseToJSON]
  · unfold updateStatusUser
    split
    · rfl
    · split
      · rfl
      · simp [bodyNoPassword, noPasswordKey_mongooseToJSON]

/-- C2 fails as stated: when the verified claims carry the subject id
`""` — present and a string, so outside the claim's 400 case — the
middleware still rejects 400 (JavaScript truthiness of `!decoded.id`),
while the claim's case analysis sends every present string subject to the
store lookup, giving 404 on this empty store. -/
theorem C2_empty_subject_counterexample :
    authenticate (fun _ => VerifyResult.ok ⟨JsId.str ""⟩) [] (some "Bearer t") =
      AuthOutcome.reject 400 "Invalid user ID in token" ∧
    authenticateClaimedSpec (fun _ => VerifyResult.ok ⟨JsId.str ""⟩) []
        (some "Bearer t") =
      AuthOutcome.reject 404 "User not found, authentication failed" ∧
    authenticate (fun _ => VerifyResult.ok ⟨JsId.str ""⟩) [] (some "Bearer t") ≠
      authenticateClaimedSpec (fun _ => VerifyResult.ok ⟨JsId.str ""⟩) []
        (some "Bearer t") :=
  ⟨by decide, by decide, by decide⟩

/-- C2 as amended: the middleware reaches exactly one of the six terminal
outcomes of the claim, in the claimed order, where the reject-400 case is
widened to a subject id that is absent, not a string, or the empty string;
the remaining five cases are exactly as claimed, and on the final case the
account, password excluded, is attached and control proceeds. -/
theorem C2_middleware_six_outcomes (verify : String → VerifyResult)
    (store : List UserRec) (h : Option String) :
    authenticate verify store h = authenticateAmendedSpec verify store h := by
  unfold authenticate authenticateAmendedSpec
  cases extractToken h with
  | none => rfl
  | some t =>
    cases hte : (t == "") with
    | true => simp [hte]
    | false =>
      simp only [hte]
      cases verify t with
      | invalid => rfl
      | expired => rfl
      | ok c =>
        cases hc : c.id with
        | absent => simp [jsTruthy, jsIsString, hc]
        | num n => simp [jsTruthy, jsIsString, hc]
        | str s =>
          cases hs : (s == "") with
          | true => simp [jsTruthy, jsIsString, jsIdString, hc, hs]
          | false => simp [jsTruthy, jsIsString, jsIdString, hc, hs]

/-- C4 fails as stated: Jane, an authenticated caller whose role is not
admin and whose id differs from the `:id` path parameter, successfully
(200) updates Bob's profile through PUT /users/:id, and Bob's stored
record is modified. -/
theorem C4_nonadmin_cross_account_counterexample :
    janeUser.role ≠ "admin" ∧ janeUser.id ≠ "u2" ∧
    (putUsersId (fun _ => VerifyResult.ok ⟨JsId.str "u1"⟩) [janeUser, bobUser]
        (some "Bearer tok") "u2" ⟨some "HACKED", none, none, none⟩).status = 200 ∧
    (putUsersId (fun _ => VerifyResult.ok ⟨JsId.str "u1"⟩) [janeUser, bobUser]
        (some "Bearer tok") "u2" ⟨some "HACKED", none, none, none⟩).storeAfter =
      [janeUser, { bobUser with fullName := some "HACKED" }] ∧
    ({ bobUser with fullName := some "HACKED" } : UserRec) ≠ bobUser :=
  ⟨by decide, by decide, by decide, by decide, by decide⟩

/-- C4 as amended: PUT /users/:id and PATCH /users/:id/status are gated by
authentication alone — once the middleware proceeds, the mutation depends
only on the store, the `:id` path parameter and the request body, not on
which account authenticated, so any authenticated caller, admin or not,
self or not, performs the same mutation. -/
theorem C4_mutations_gated_by_authentication_only
    (verify verify' : String → VerifyResult) (store : List UserRec)
    (h h' : Option String) (tid status : String) (b : UpdateBody)
    (su su' : List (String × String))
    (ha : authenticate verify store h = .proceed su)
    (ha' : authenticate verify' store h' = .proceed su') :
    putUsersId verify store h tid b = putUsersId verify' store h' tid b ∧
    patchUsersIdStatus verify store h tid status =
      patchUsersIdStatus verify' store h' tid status := by
  unfold putUsersId patchUsersIdStatus
  rw [ha, ha']
  exact ⟨rfl, rfl⟩

/-- Witness for C4: Jane and Bob, two distinct non-admin authenticated
callers, obtain identical outcomes when targeting Bob's account. -/
theorem C4_mutations_gated_by_authentication_only_witness :
    authenticate (fun _ => VerifyResult.ok ⟨JsId.str "u1"⟩) [janeUser, bobUser]
        (some "Bearer t") = AuthOutcome.proceed (selectNoPassword (userDoc janeUser)) ∧
    authenticate (fun _ => VerifyResult.ok ⟨JsId.str "u2"⟩) [janeUser, bobUser]
        (some "Bearer t") = AuthOutcome.proceed (selectNoPassword (userDoc bobUser)) ∧
    (putUsersId (fun _ => VerifyResult.ok ⟨JsId.str "u1"⟩) [janeUser, bobUser]
        (some "Bearer t") "u2" ⟨some "HACKED", none, none, none⟩ =
      putUsersId (fun _ => VerifyResult.ok ⟨JsId.str "u2"⟩) [janeUser, bobUser]
        (some "Bearer t") "u2" ⟨some "HACKED", none, none, none⟩ ∧
     patchUsersIdStatus (fun _ => VerifyResult.ok ⟨JsId.str "u1"⟩) [janeUser, bobUser]
        (some "Bearer t") "u2" "inactive" =
      patchUsersIdStatus (fun _ => VerifyResult.ok ⟨JsId.str "u2"⟩) [janeUser, bobUser]
        (some "Bearer t") "u2" "inactive") :=
  ⟨by decide, by decide,
    C4_mutations_gated_by_authentication_only
      (fun _ => VerifyResult.ok ⟨JsId.str "u1"⟩)
      (fun _ => VerifyResult.ok ⟨JsId.str "u2"⟩) [janeUser, bobUser]
      (some "Bearer t") (some "Bearer t") "u2" "inactive"
      ⟨some "HACKED", none, none, none⟩
      (selectNoPassword (userDoc janeUser)) (selectNoPassword (userDoc bobUser))
      (by decide) (by decide)⟩

/-- C5: a successful refresh only mints and returns a new access token —
no cookie operation is performed (the refresh cookie is neither rotated,
re-set nor cleared), the store is untouched, and therefore the same
unexpired refresh token, presented a second time against the resulting
state, succeeds again and yields another usable access token. -/
theorem C5_refresh_no_rotation
    (now now2 attl : Nat) (p : RefreshPayload) (store : List UserRec) (u : UserRec)
    (h1 : now < p.exp) (h2 : now2 < p.exp)
    (hu : findById store p.sub = some u) :
    (refreshHandler now attl ⟨some (RTok.signed p), store⟩).status = 200 ∧
    (refreshHandler now attl ⟨some (RTok.signed p), store⟩).newAccessToken =
      some (refreshMintAccessToken now attl u) ∧
    (refreshHandler now attl ⟨some (RTok.signed p), store⟩).cookieEffect =
      CookieEffect.noop ∧
    (refreshHandler now attl ⟨some (RTok.signed p), store⟩).storeAfter = store ∧
    applyCookieEffect
        (refreshHandler now attl ⟨some (RTok.signed p), store⟩).cookieEffect
        (some (RTok.signed p)) = some (RTok.signed p) ∧
    (refreshHandler now2 attl
        ⟨applyCookieEffect
            (refreshHandler now attl ⟨some (RTok.signed p), store⟩).cookieEffect
            (some (RTok.signed p)),
          (refreshHandler now attl ⟨some (RTok.signed p), store⟩).storeAfter⟩).status =
      200 ∧
    (refreshHandler now2 attl
        ⟨applyCookieEffect
            (refreshHandler now attl ⟨some (RTok.signed p), store⟩).cookieEffect
            (some (RTok.signed p)),
          (refreshHandler now attl ⟨some (RTok.signed p), store⟩).storeAfter⟩).newAccessToken =
      some (refreshMintAccessToken now2 attl u) := by
  simp [refreshHandler, verifyRefresh, applyCookieEffect, h1, h2, hu]

/-- Witness for C5: a refresh token for Jane's account, exercised twice
before its expiry. -/
theorem C5_refresh_no_rotation_witness :
    (1 < (⟨"u1", 0, 100⟩ : RefreshPayload).exp ∧
     2 < (⟨"u1", 0, 100⟩ : RefreshPayload).exp ∧
     findById [janeUser] (⟨"u1", 0, 100⟩ : RefreshPayload).sub = some janeUser) ∧
    ((refreshHandler 1 900 ⟨some (RTok.signed ⟨"u1", 0, 100⟩), [janeUser]⟩).status =
        200 ∧
      (refreshHandler 1 900 ⟨some (RTok.signed ⟨"u1", 0, 100⟩), [janeUser]⟩).newAccessToken =
        some (refreshMintAccessToken 1 900 janeUser) ∧
      (refreshHandler 1 900 ⟨some (RTok.signed ⟨"u1", 0, 100⟩), [janeUser]⟩).cookieEffect =
        CookieEffect.noop ∧
      (refreshHandler 1 900 ⟨some (RTok.signed ⟨"u1", 0, 100⟩), [janeUser]⟩).storeAfter =
        [janeUser] ∧
      applyCookieEffect
          (refreshHandler 1 900 ⟨some (RTok.signed ⟨"u1", 0, 100⟩), [janeUser]⟩).cookieEffect
          (some (RTok.signed ⟨"u1", 0, 100⟩)) = some (RTok.signed ⟨"u1", 0, 100⟩) ∧
      (refreshHandler 2 900
          ⟨applyCookieEffect
              (refreshHandler 1 900 ⟨some (RTok.signed ⟨"u1", 0, 100⟩), [janeUser]⟩).cookieEffect
              (some (RTok.signed ⟨"u1", 0, 100⟩)),
            (refreshHandler 1 900 ⟨some (RTok.signed ⟨"u1", 0, 100⟩), [janeUser]⟩).storeAfter⟩).status =
        200 ∧
      (refreshHandler 2 900
          ⟨applyCookieEffect
              (refreshHandler 1 900 ⟨some (RTok.signed ⟨"u1", 0, 100⟩), [janeUser]⟩).cookieEffect
              (some (RTok.signed ⟨"u1", 0, 100⟩)),
            (refreshHandler 1 900 ⟨some (RTok.signed ⟨"u1", 0, 100⟩), [janeUser]⟩).storeAfter⟩).newAccessToken =
        some (refreshMintAccessToken 2 900 janeUser)) :=
  ⟨⟨by decide, by decide, by decide⟩,
    C5_refresh_no_rotation 1 2 900 ⟨"u1", 0, 100⟩ [janeUser] janeUser
      (by decide) (by decide) (by decide)⟩

/-- C6 fails as stated: with a valid reset token but the store unavailable
(and likewise with a hashing fault), the handler's catch-all reports the
client error 400 "Invalid or expired token", whereas the claim escalates
such faults to a 500 internal error. -/
theorem C6_fault_reported_as_400_counterexample :
    resetPassword (fun _ => ResetVerify.ok "u1") false true (fun s => s)
        [janeUser] "tok" "newpw" =
      ⟨400, "Invalid or expired token", [janeUser]⟩ ∧
    resetPasswordClaimedSpec (fun _ => ResetVerify.ok "u1") false true (fun s => s)
        [janeUser] "tok" "newpw" =
      ⟨500, "Internal server error", [janeUser]⟩ ∧
    resetPassword (fun _ => ResetVerify.ok "u1") false true (fun s => s)
        [janeUser] "tok" "newpw" ≠
      resetPasswordClaimedSpec (fun _ => ResetVerify.ok "u1") false true (fun s => s)
        [janeUser] "tok" "newpw" ∧
    resetPassword (fun _ => ResetVerify.ok "u1") true false (fun s => s)
        [janeUser] "tok" "newpw" =
      ⟨400, "Invalid or expired token", [janeUser]⟩ ∧
    resetPasswordClaimedSpec (fun _ => ResetVerify.ok "u1") true false (fun s => s)
        [janeUser] "tok" "newpw" =
      ⟨500, "Internal server error", [janeUser]⟩ :=
  ⟨by decide, by decide, by decide, by decide, by decide⟩

/-- C6 as amended: the reset-password outcome mapping is — verification
failure 400 "Invalid or expired token"; valid token with no matching
account 404; otherwise the new password is hashed and persisted,
overwriting the old hash, with 200; and an unexpected fault during the
operation (store unavailable, hashing failure) is reported by the same
catch-all as 400 "Invalid or expired token", not as a 500 internal
error. -/
theorem C6_reset_outcome_mapping (verify : String → ResetVerify)
    (storeUp hashOk : Bool) (hash : String → String) (store : List UserRec)
    (token newPassword : String) :
    resetPassword verify storeUp hashOk hash store token newPassword =
      resetPasswordAmendedSpec verify storeUp hashOk hash store token newPassword := by
  rfl

/-- C7 fails as stated: the access token minted by the refresh handler
carries no email claim — its claim set is `id`, `iat`, `exp` — unlike the
login-minted access token. -/
theorem C7_refresh_access_token_lacks_email_counterexample :
    accessClaimKeys (refreshMintAccessToken 0 900 janeUser) = ["id", "iat", "exp"] ∧
    accessClaimKeys (refreshMintAccessToken 0 900 janeUser) ≠
      ["id", "email", "iat", "exp"] ∧
    accessClaimKeys (generateAccessToken 0 900 janeUser) =
      ["id", "email", "iat", "exp"] ∧
    (refreshMintAccessToken 0 900 janeUser).email = none :=
  ⟨by decide, by decide, by decide, by decide⟩

/-- C7 as amended: every access token carries subject = account id,
issued-at and expiry; the login-minted token additionally carries the
account's email, while the refresh-minted token carries no email claim. -/
theorem C7_access_token_claim_sets (u : UserRec) (now ttl : Nat) :
    (generateAccessToken now ttl u).id = u.id ∧
    (generateAccessToken now ttl u).email = some u.email ∧
    (generateAccessToken now ttl u).iat = now ∧
    (generateAccessToken now ttl u).exp = now + ttl ∧
    accessClaimKeys (generateAccessToken now ttl u) = ["id", "email", "iat", "exp"] ∧
    (refreshMintAccessToken now ttl u).id = u.id ∧
    (refreshMintAccessToken now ttl u).email = none ∧
    (refreshMintAccessToken now ttl u).iat = now ∧
    (refreshMintAccessToken now ttl u).exp = now + ttl ∧
    accessClaimKeys (refreshMintAccessToken now ttl u) = ["id", "iat", "exp"] :=
  ⟨rfl, rfl, rfl, rfl, rfl, rfl, rfl, rfl, rfl, rfl⟩

/-- C8: for a forgot-password request naming a stored account's email, the
HTTP outcome — 200, the success message, and the reset link embedding the
freshly minted token — is identical whether the email dispatch succeeds or
fails: `sendEmail` swallows the transport outcome, so a dispatch failure
neither changes the response nor rolls back the token issuance. -/
theorem C8_forgot_password_dispatch_independent
    (now rsttl : Nat) (clientURL : String) (store : List UserRec)
    (email : String) (u : UserRec)
    (hu : findOneEmail store email = some u) (t1 t2 : MailOutcome) :
    (forgotPassword now rsttl t1 clientURL store email).status = 200 ∧
    (forgotPassword now rsttl t1 clientURL store email).message =
      "Password reset link sent successfully" ∧
    (forgotPassword now rsttl t1 clientURL store email).resetLink =
      some (clientURL, ⟨u.id, now, now + rsttl⟩) ∧
    (forgotPassword now rsttl t1 clientURL store email).status =
      (forgotPassword now rsttl t2 clientURL store email).status ∧
    (forgotPassword now rsttl t1 clientURL store email).message =
      (forgotPassword now rsttl t2 clientURL store email).message ∧
    (forgotPassword now rsttl t1 clientURL store email).resetLink =
      (forgotPassword now rsttl t2 clientURL store email).resetLink := by
  simp [forgotPassword, hu]

/-- Witness for C8: Jane requests a reset; a failed dispatch and a
successful one produce the same HTTP outcome. -/
theorem C8_forgot_password_dispatch_independent_witness :
    findOneEmail [janeUser] "jane@x.com" = some janeUser ∧
    ((forgotPassword 0 900 MailOutcome.failed "https://client" [janeUser]
        "jane@x.com").status = 200 ∧
      (forgotPassword 0 900 MailOutcome.failed "https://client" [janeUser]
        "jane@x.com").message = "Password reset link sent successfully" ∧
      (forgotPassword 0 900 MailOutcome.failed "https://client" [janeUser]
        "jane@x.com").resetLink = some ("https://client", ⟨janeUser.id, 0, 0 + 900⟩) ∧
      (forgotPassword 0 900 MailOutcome.failed "https://client" [janeUser]
        "jane@x.com").status =
        (forgotPassword 0 900 MailOutcome.sent "https://client" [janeUser]
          "jane@x.com").status ∧
      (forgotPassword 0 900 MailOutcome.failed "https://client" [janeUser]
        "jane@x.com").message =
        (forgotPassword 0 900 MailOutcome.sent "https://client" [janeUser]
          "jane@x.com").message ∧
      (forgotPassword 0 900 MailOutcome.failed "https://client" [janeUser]
        "jane@x.com").resetLink =
        (forgotPassword 0 900 MailOutcome.sent "https://client" [janeUser]
          "jane@x.com").resetLink) :=
  ⟨by decide,
    C8_forgot_password_dispatch_independent 0 900 "https://client" [janeUser]
      "jane@x.com" janeUser (by decide) MailOutcome.failed MailOutcome.sent⟩

/-- C9: registration stores the account email lowercased, and a second
registration whose email normalizes to the same lowercase form finds the
stored account (the schema's lowercase setter is applied to the query as
well) and fails with 400 "Email is already in use", leaving the store
unchanged. -/
theorem C9_register_normalizes_and_rejects_duplicate
    (emailOk : String → Bool) (hash : String → String) (fid1 fid2 : String)
    (store : List UserRec) (r1 r2 : RegisterReq)
    (hv1 : registerValidationError emailOk r1 = false)
    (hv2 : registerValidationError emailOk r2 = false)
    (h1 : findOneEmail store r1.email = none)
    (he : lowerStr r2.email = lowerStr r1.email) :
    register emailOk hash fid1 store r1 =
      ⟨201, "User registered successfully",
        some (registerBodyUser (mkRegUser hash fid1 r1)),
        store ++ [mkRegUser hash fid1 r1]⟩ ∧
    (mkRegUser hash fid1 r1).email = lowerStr r1.email ∧
    register emailOk hash fid2 (store ++ [mkRegUser hash fid1 r1]) r2 =
      ⟨400, "Email is already in use", none,
        store ++ [mkRegUser hash fid1 r1]⟩ := by
  refine ⟨by simp [register, hv1, h1], rfl, ?_⟩
  have hfind : findOneEmail (store ++ [mkRegUser hash fid1 r1]) r2.email =
      some (mkRegUser hash fid1 r1) := by
    unfold findOneEmail at h1 ⊢
    simp only [he]
    rw [find?_append_of_none _ _ _ h1]
    simp [List.find?_cons, mkRegUser]
  simp [register, hv2, hfind]

/-- Witness for C9: the spec's own example — registering
`JANE@x.com` stores `jane@x.com`, and registering the same email again is
rejected with "Email is already in use". -/
theorem C9_register_normalizes_and_rejects_duplicate_witness :
    registerValidationError (fun _ => true)
      ⟨some "Jane Doe", "JANE@x.com", "secret1"⟩ = false ∧
    findOneEmail [] "JANE@x.com" = none ∧
    lowerStr "JANE@x.com" = "jane@x.com" ∧
    (register (fun _ => true) (fun _ => "h") "u1" []
        ⟨some "Jane Doe", "JANE@x.com", "secret1"⟩ =
      ⟨201, "User registered successfully",
        some (registerBodyUser
          (mkRegUser (fun _ => "h") "u1" ⟨some "Jane Doe", "JANE@x.com", "secret1"⟩)),
        [] ++ [mkRegUser (fun _ => "h") "u1" ⟨some "Jane Doe", "JANE@x.com", "secret1"⟩]⟩ ∧
      (mkRegUser (fun _ => "h") "u1" ⟨some "Jane Doe", "JANE@x.com", "secret1"⟩).email =
        lowerStr "JANE@x.com" ∧
      register (fun _ => true) (fun _ => "h") "u9"
        ([] ++ [mkRegUser (fun _ => "h") "u1" ⟨some "Jane Doe", "JANE@x.com", "secret1"⟩])
        ⟨some "Jane Doe", "JANE@x.com", "secret1"⟩ =
      ⟨400, "Email is already in use", none,
        [] ++ [mkRegUser (fun _ => "h") "u1" ⟨some "Jane Doe", "JANE@x.com", "secret1"⟩]⟩) :=
  ⟨by decide, by decide, by decide,
    C9_register_normalizes_and_rejects_duplicate (fun _ => true) (fun _ => "h")
      "u1" "u9" [] ⟨some "Jane Doe", "JANE@x.com", "secret1"⟩
      ⟨some "Jane Doe", "JANE@x.com", "secret1"⟩
      (by decide) (by decide) (by decide) rfl⟩

/-- C10: an Authorization header that starts with `Bearer` but contains no
space yields no extracted token — `split(" ")[1]` is undefined — so the
middleware rejects 401 with the no-token-provided message for every
verification oracle; verification is never consulted and the invalid and
expired branches are unreachable. -/
theorem C10_bearer_without_space_is_missing_token
    (verify : String → VerifyResult) (store : List UserRec) (h : String)
    (hb : startsWithChars "Bearer".toList h.toList = true)
    (hs : ∀ c ∈ h.toList, c ≠ ' ') :
    extractToken (some h) = none ∧
    authenticate verify store (some h) =
      AuthOutcome.reject 401 "Unauthorized - No token provided" := by
  have hsplit : splitSpace h.toList = [h.toList] := splitSpace_no_space _ hs
  have hext : extractToken (some h) = none := by
    simp only [extractToken]
    rw [hb, hsplit]
    rfl
  exact ⟨hext, by simp [authenticate, hext]⟩

/-- Witness for C10: the header value `Bearer`, on an arbitrary
verification oracle that would report the token invalid if it were ever
consulted. -/
theorem C10_bearer_without_space_is_missing_token_witness :
    startsWithChars "Bearer".toList "Bearer".toList = true ∧
    (∀ c ∈ "Bearer".toList, c ≠ ' ') ∧
    (extractToken (some "Bearer") = none ∧
      authenticate (fun _ => VerifyResult.invalid) [] (some "Bearer") =
        AuthOutcome.reject 401 "Unauthorized - No token provided") :=
  ⟨by decide, by decide,
    C10_bearer_without_space_is_missing_token (fun _ => VerifyResult.invalid) []
      "Bearer" (by decide) (by decide)⟩

end Blulog
